import Mathlib

/-!
Shallow embedding of reqlogd (src/reqlogd.go), a small Go HTTP server that
records metadata of every inbound request into a MySQL table.

Modelling conventions:
- Go time.Time is a pair of an instant and a location name; the UTC method
  keeps the instant and sets the location to UTC.
- http.Header is a finite map from canonical key to a list of values,
  embedded as an association list; theorems that need map semantics assume
  the key list has no duplicates.
- fmt.Sprint of a Go map prints entries in sorted key order (Go >= 1.12),
  each entry as key:value, separated by single spaces, wrapped in map[...].
- net/http ResponseWriter semantics: the first body write implicitly sends
  status 200 if WriteHeader was not called yet; a WriteHeader call after the
  header was already sent is ignored (logged as superfluous by net/http);
  a handler that returns without writing anything yields status 200 with an
  empty body.
- io/ioutil ReadAll returns the bytes read so far together with the error,
  so on a mid-stream read failure the returned slice holds the bytes that
  were successfully read before the failure.
- encoding/json marshals a struct by emitting only its exported fields
  (field name starting with an upper-case letter); an unexported field is
  invisible, and a struct with no visible field marshals to the empty
  object. Encode appends a newline. String escaping inside values is
  elided: the only struct marshalled here never emits its field.
- File-system and driver effects of tlsConfig (reading the CA bundle,
  loading the key pair, registering the profile with the mysql driver) are
  abstracted as a function argument from the three paths to a profile key
  or an error, since dbConfFromEnv only forwards its result.
- os.LookupEnv is embedded as a record of optional strings, one per
  environment variable the program reads.
-/

namespace Reqlogd

/-- Go time.Time: an instant (unix nanoseconds) plus a location name. -/
structure GoTime where
  unix : Int
  loc : String
deriving Repr, DecidableEq

/-- The UTC method of time.Time: same instant, location set to UTC. -/
def GoTime.utc (t : GoTime) : GoTime := { t with loc := "UTC" }

/-- http.Header: association list from canonical header key to values. -/
def Header := List (String × List String)

/-- The list of keys of a header map. -/
def headerKeys (h : Header) : List String := h.map Prod.fst

/-- fmt rendering of a Go []string value: the values separated by single
spaces, wrapped in square brackets. -/
def fmtStringSlice (vs : List String) : String :=
  "[" ++ String.intercalate " " vs ++ "]"

/-- fmt.Sprint of an http.Header (a Go map): entries in sorted key order,
each rendered key:value, space separated, wrapped in map[...]. -/
def fmtSprintHeader (h : Header) : String :=
  let ks := (headerKeys h).mergeSort (fun a b => a ≤ b)
  "map[" ++
    String.intercalate " "
      (ks.map (fun k => k ++ ":" ++ fmtStringSlice ((h.lookup k).getD []))) ++
    "]"

/-- The fields of net/url URL that serveReqLog uses. -/
structure URL where
  scheme : String
  host : String
  path : String
  rawQuery : String
deriving Repr, DecidableEq

/-- The String method of net/url URL, for the shapes built here: scheme,
the :// separator, host, path, and the raw query after a question mark when
nonempty. Percent-escaping of path segments is elided; it never touches the
scheme part, which is emitted first and verbatim. -/
def URL.string (u : URL) : String :=
  u.scheme ++ "://" ++ u.host ++ u.path ++
    (if u.rawQuery = "" then "" else "?" ++ u.rawQuery)

/-- The scheme component of a rendered URL: the characters before the first
colon. -/
def urlScheme (s : String) : String :=
  String.mk (s.data.takeWhile (fun c => c ≠ ':'))

/-- What draining the request body with ioutil.ReadAll yields: the bytes
read before EOF or before a failure, and whether a failure occurred. -/
structure BodyStream where
  bytes : List Nat
  readErr : Bool
deriving Repr, DecidableEq

/-- The parts of http.Request that serveReqLog reads. tls is whether the
request arrived over a TLS-terminated connection (r.TLS non-nil). -/
structure Request where
  url : URL
  host : String
  method : String
  remoteAddr : String
  header : Header
  body : Option BodyStream
  proto : String
  tls : Bool

/-- net/http ResponseWriter state: the status line once sent, and the
accumulated body. -/
structure ResponseWriter where
  status : Option Nat
  body : String
deriving Repr, DecidableEq

/-- A fresh ResponseWriter: nothing sent yet. -/
def ResponseWriter.initial : ResponseWriter := { status := none, body := "" }

/-- Writing body bytes: implicitly sends status 200 first when the header
was not sent yet, then appends to the body. -/
def ResponseWriter.write (w : ResponseWriter) (s : String) : ResponseWriter :=
  { status := some (w.status.getD 200), body := w.body ++ s }

/-- WriteHeader: sends the status line, unless the header was already sent,
in which case the call is ignored (net/http logs it as superfluous). -/
def ResponseWriter.writeHeader (w : ResponseWriter) (code : Nat) : ResponseWriter :=
  match w.status with
  | some _ => w
  | none => { w with status := some code }

/-- The status the caller observes once the handler returns: 200 when the
handler never wrote anything. -/
def ResponseWriter.finalStatus (w : ResponseWriter) : Nat := w.status.getD 200

/-- One field of a Go struct value, as seen by encoding/json: its name and
its rendered JSON value. -/
structure GoField where
  name : String
  value : String
deriving Repr, DecidableEq

/-- Go exports a struct field iff its name starts with an upper-case
letter; encoding/json only sees exported fields. -/
def goFieldExported (name : String) : Bool := name.front.isUpper

/-- encoding/json marshalling of a struct: a JSON object holding only the
exported fields. -/
def jsonMarshalStruct (fields : List GoField) : String :=
  "\x7b" ++
    String.intercalate ","
      ((fields.filter (fun f => goFieldExported f.name)).map
        (fun f => "\"" ++ f.name ++ "\":" ++ f.value)) ++
    "\x7d"

/-- json Encoder Encode: the marshalled value followed by a newline. -/
def jsonEncode (fields : List GoField) : String := jsonMarshalStruct fields ++ "\n"

/-- JSON rendering of a string value (escaping elided; see module header). -/
def jsonQuote (s : String) : String := "\"" ++ s ++ "\""

/-- jsonError from src/reqlogd.go: encodes an anonymous struct with the
single unexported field msg into the writer, then calls WriteHeader with
the given code. The encode happens first, exactly as in the source. -/
def jsonError (w : ResponseWriter) (msg : String) (code : Nat) : ResponseWriter :=
  (w.write (jsonEncode [{ name := "msg", value := jsonQuote msg }])).writeHeader code

/-- The in-memory record serveReqLog assembles, one per request. The field
recievedAt keeps the spelling of the source variable. -/
structure Record where
  recievedAt : GoTime
  url : String
  method : String
  remote : String
  headers : String
  length : Nat
  protocol : String
deriving Repr, DecidableEq

/-- Observable actions of serveReqLog, in the order the source performs
them: sampling the clock, reconstructing the URL, draining the body,
calling the insert, and (on failure only) writing the error response. -/
inductive Event
  | clockRead
  | urlBuild
  | drainBody
  | insertCall
  | respondError
deriving Repr, DecidableEq, BEq

/-- The server struct: the db dependency exposing the insert outcome, and
the injected clock. -/
structure Server where
  db : Record → Except String Unit
  now : GoTime

/-- What one invocation of serveReqLog produces: the assembled record, the
final writer state, and the trace of observable actions in source order. -/
structure HandlerResult where
  record : Record
  response : ResponseWriter
  trace : List Event

/-- serveReqLog from src/reqlogd.go, transcribed statement by statement:
sample the clock and normalize to UTC; copy the request URL and override
host and scheme (https iff r.TLS is non-nil); render the URL; copy method,
remote address, protocol; render the headers with fmt.Sprint; drain the
body, logging but not propagating a read failure, and take the length of
the bytes ReadAll returned; insert; on insert failure call jsonError with
code 500, otherwise return without writing. -/
def Server.serveReqLog (s : Server) (r : Request) (w : ResponseWriter) : HandlerResult :=
  let recievedAt := s.now.utc
  let u : URL :=
    { r.url with host := r.host, scheme := if r.tls then "https" else "http" }
  let url := u.string
  let method := r.method
  let remote := r.remoteAddr
  let headers := fmtSprintHeader r.header
  let length :=
    match r.body with
    | none => 0
    | some b => b.bytes.length
  let protocol := r.proto
  let record : Record :=
    { recievedAt := recievedAt, url := url, method := method, remote := remote,
      headers := headers, length := length, protocol := protocol }
  match s.db record with
  | .error e =>
      { record := record,
        response := jsonError w ("internal error: " ++ e) 500,
        trace := [.clockRead, .urlBuild, .drainBody, .insertCall, .respondError] }
  | .ok _ =>
      { record := record, response := w,
        trace := [.clockRead, .urlBuild, .drainBody, .insertCall] }

/-- The error values of src/reqlogd.go startup configuration, plus a
constructor for errors surfaced by the abstracted file-system and driver
effects of tlsConfig. -/
inductive ConfErr
  | errCertPath
  | errClientCertPath
  | errClientKeyPath
  | errCertPEM
  | ioErr (s : String)
deriving Repr, DecidableEq

/-- The message of each startup error, verbatim from the source. -/
def ConfErr.message : ConfErr → String
  | .errCertPath => "DB_CA_CERT_PATH is required and was not set"
  | .errClientCertPath => "DB_CLIENT_CERT_PATH is required and was not set"
  | .errClientKeyPath => "DB_CLIENT_KEY_PATH is required and was not set"
  | .errCertPEM => "trusted conn with DB not established, cannot parse cert PEM"
  | .ioErr s => s

/-- The environment variables the program reads, each possibly unset. -/
structure Env where
  reqlogdAddr : Option String
  dbUser : Option String
  dbPass : Option String
  dbAddr : Option String
  dbName : Option String
  dbSkipTLS : Option String
  dbCACertPath : Option String
  dbClientCertPath : Option String
  dbClientKeyPath : Option String

/-- The mysql.Config fields the program sets. tlsConfig is the name of the
registered TLS profile; the zero value (empty) means no encrypted channel. -/
structure MySQLConfig where
  user : String
  passwd : String
  net : String
  addr : String
  dbName : String
  loc : String
  parseTime : Bool
  tlsConfig : String
deriving Repr, DecidableEq

/-- tlsConfig (src/reqlogd.go) with its effects abstracted: from the CA
path, client certificate path and client key path to the registered profile
key, or an error (unreadable CA file, unparsable PEM, bad key pair,
registration failure). -/
def TLSBuilder := String → String → String → Except ConfErr String

/-- The base config dbConfFromEnv assembles before the TLS section:
defaults overridden by DB_USER, DB_PASS, DB_ADDR, DB_NAME. -/
def baseDconf (env : Env) : MySQLConfig :=
  let dconf : MySQLConfig :=
    { user := "root", passwd := "", net := "tcp", addr := "localhost:3306",
      dbName := "test", loc := "UTC", parseTime := true, tlsConfig := "" }
  let dconf := match env.dbUser with | some v => { dconf with user := v } | none => dconf
  let dconf := match env.dbPass with | some v => { dconf with passwd := v } | none => dconf
  let dconf := match env.dbAddr with | some v => { dconf with addr := v } | none => dconf
  let dconf := match env.dbName with | some v => { dconf with dbName := v } | none => dconf
  dconf

/-- dbConfFromEnv from src/reqlogd.go: assemble the base config; if
DB_SKIP_TLS is set return it as is; otherwise require the three
certificate paths in order (CA, client certificate, client key), failing
with the matching error at the first unset one, then build and attach the
TLS profile. -/
def dbConfFromEnv (env : Env) (tlsCfg : TLSBuilder) : Except ConfErr MySQLConfig :=
  let dconf := baseDconf env
  match env.dbSkipTLS with
  | some _ => .ok dconf
  | none =>
    match env.dbCACertPath with
    | none => .error .errCertPath
    | some caCertPath =>
      match env.dbClientCertPath with
      | none => .error .errClientCertPath
      | some clientCertPath =>
        match env.dbClientKeyPath with
        | none => .error .errClientKeyPath
        | some clientKeyPath =>
          match tlsCfg caCertPath clientCertPath clientKeyPath with
          | .error e => .error e
          | .ok tconf => .ok { dconf with tlsConfig := tconf }

/-- Outcome of the startup sequence in main: either a fatal error (the
process exits via log.Fatal before ListenAndServe) or listening on the
resolved address with the resolved config. -/
inductive StartupResult
  | fatal (e : ConfErr)
  | listening (addr : String) (dconf : MySQLConfig)
deriving Repr, DecidableEq

/-- The startup sequence of main, up to ListenAndServe: resolve the listen
address, resolve the db config (fatal on error), open and ping the store
(abstracted as the ping argument, fatal on error), then listen. -/
def mainStartup (env : Env) (tlsCfg : TLSBuilder)
    (ping : MySQLConfig → Except ConfErr Unit) : StartupResult :=
  let addr := env.reqlogdAddr.getD ":8080"
  match dbConfFromEnv env tlsCfg with
  | .error e => .fatal e
  | .ok dconf =>
    match ping dconf with
    | .error e => .fatal e
    | .ok _ => .listening addr dconf

end Reqlogd

namespace Reqlogd

/-- Whether startup reached the listening state. -/
def StartupResult.isListening : StartupResult → Bool
  | .fatal _ => false
  | .listening _ _ => true

/-- A plain GET request with no body over plaintext, for concrete
evaluations. -/
def req0 : Request :=
  { url := { scheme := "", host := "", path := "/", rawQuery := "" },
    host := "example.com", method := "GET", remoteAddr := "10.0.0.7:5412",
    header := [], body := none, proto := "HTTP/1.1", tls := false }

/-- The plain request arriving over a TLS-terminated connection. -/
def reqTLS : Request := { req0 with tls := true }

/-- A request whose body read fails after three bytes were delivered. -/
def reqBodyErr : Request :=
  { req0 with body := some { bytes := [104, 101, 108], readErr := true } }

/-- A server whose insert always fails. -/
def srvFail : Server :=
  { db := fun _ => .error "boom", now := { unix := 1700000000, loc := "Local" } }

/-- A server whose insert always succeeds. -/
def srvOk : Server :=
  { db := fun _ => .ok (), now := { unix := 1700000000, loc := "Local" } }

/-- Two header maps equal as maps but listed in different orders. -/
def hdr1 : Header := [("Accept", ["a"]), ("Host", ["h"])]

/-- The same header map as hdr1, other listing order. -/
def hdr2 : Header := [("Host", ["h"]), ("Accept", ["a"])]

/-- The plain request carrying hdr1. -/
def reqH1 : Request := { req0 with header := hdr1 }

/-- The plain request carrying hdr2. -/
def reqH2 : Request := { req0 with header := hdr2 }

/-- An environment with every variable unset. -/
def Env.empty : Env :=
  { reqlogdAddr := none, dbUser := none, dbPass := none, dbAddr := none,
    dbName := none, dbSkipTLS := none, dbCACertPath := none,
    dbClientCertPath := none, dbClientKeyPath := none }

/-- A trust-profile builder that succeeds with the fixed profile key. -/
def tlsOk : TLSBuilder := fun _ _ _ => .ok "custom"

/-- A trust-profile builder that fails. -/
def tlsBad : TLSBuilder := fun _ _ _ => .error .errCertPEM

/-- A store whose startup ping succeeds. -/
def pingOk : MySQLConfig → Except ConfErr Unit := fun _ => .ok ()

/-- Environment with the TLS opt-out unset and only the CA path missing. -/
def envNoCA : Env :=
  { Env.empty with
      dbClientCertPath := some "cc.pem", dbClientKeyPath := some "ck.pem" }

/-- Environment with the TLS opt-out unset, CA path and client key path
both missing. -/
def envNoCANoKey : Env := { Env.empty with dbClientCertPath := some "cc.pem" }

/-- Environment with the TLS opt-out set and all three paths present. -/
def envSkip : Env :=
  { Env.empty with
      dbUser := some "u", dbSkipTLS := some "1", dbCACertPath := some "ca.pem",
      dbClientCertPath := some "cc.pem", dbClientKeyPath := some "ck.pem" }

/-- The record serveReqLog assembles, spelled out: it is the same in the
success and the failure branch. -/
theorem serveReqLog_record (s : Server) (r : Request) (w : ResponseWriter) :
    (s.serveReqLog r w).record =
      { recievedAt := s.now.utc,
        url := URL.string
          { r.url with host := r.host, scheme := if r.tls then "https" else "http" },
        method := r.method, remote := r.remoteAddr,
        headers := fmtSprintHeader r.header,
        length := match r.body with | none => 0 | some b => b.bytes.length,
        protocol := r.proto } := by
  simp only [Server.serveReqLog]
  split <;> rfl

/-- On insert failure, serveReqLog answers through jsonError and the trace
ends in the error response. -/
theorem serveReqLog_err (s : Server) (r : Request) (w : ResponseWriter) (e : String)
    (h : s.db ((s.serveReqLog r w).record) = .error e) :
    (s.serveReqLog r w).response = jsonError w ("internal error: " ++ e) 500 ∧
    (s.serveReqLog r w).trace =
      [.clockRead, .urlBuild, .drainBody, .insertCall, .respondError] := by
  rw [serveReqLog_record] at h
  simp only [Server.serveReqLog]
  rw [h]
  exact ⟨rfl, rfl⟩

/-- On insert success, serveReqLog writes nothing to the response. -/
theorem serveReqLog_ok (s : Server) (r : Request) (w : ResponseWriter)
    (h : s.db ((s.serveReqLog r w).record) = .ok ()) :
    (s.serveReqLog r w).response = w ∧
    (s.serveReqLog r w).trace = [.clockRead, .urlBuild, .drainBody, .insertCall] := by
  rw [serveReqLog_record] at h
  simp only [Server.serveReqLog]
  rw [h]
  exact ⟨rfl, rfl⟩

/-- The trace of serveReqLog is one of the two source paths. -/
theorem serveReqLog_trace (s : Server) (r : Request) (w : ResponseWriter) :
    (s.serveReqLog r w).trace = [.clockRead, .urlBuild, .drainBody, .insertCall] ∨
    (s.serveReqLog r w).trace =
      [.clockRead, .urlBuild, .drainBody, .insertCall, .respondError] := by
  simp only [Server.serveReqLog]
  split
  · right; rfl
  · left; rfl

/-- A key is in the header key list iff lookup finds it. -/
theorem lookup_isSome_iff (h : Header) (k : String) :
    (h.lookup k).isSome = true ↔ k ∈ headerKeys h := by
  induction h with
  | nil => simp [List.lookup, headerKeys]
  | cons a t ih =>
    cases a with
    | mk key v =>
      by_cases hk : k = key
      · simp [List.lookup, headerKeys, hk]
      · simp only [List.lookup, headerKeys, List.map_cons, List.mem_cons]
        rw [show (k == key) = false by simp [hk]]
        simp [hk, ← ih, headerKeys]

/-- The fmt rendering of a header map depends only on the map it
represents: association lists with duplicate-free keys and the same lookup
function render identically, because the keys are sorted first. -/
theorem fmtSprintHeader_eq_of_lookup_eq (h1 h2 : Header)
    (n1 : (headerKeys h1).Nodup) (n2 : (headerKeys h2).Nodup)
    (hl : ∀ k, h1.lookup k = h2.lookup k) :
    fmtSprintHeader h1 = fmtSprintHeader h2 := by
  have hmem : ∀ k, k ∈ headerKeys h1 ↔ k ∈ headerKeys h2 := by
    intro k; rw [← lookup_isSome_iff, ← lookup_isSome_iff, hl k]
  have hperm : (headerKeys h1).Perm (headerKeys h2) :=
    List.perm_of_nodup_nodup_toFinset_eq n1 n2
      (by ext k; simp only [List.mem_toFinset]; exact hmem k)
  have htrans : ∀ a b c : String, (decide (a ≤ b)) = true → (decide (b ≤ c)) = true →
      (decide (a ≤ c)) = true := fun a b c hab hbc =>
    decide_eq_true (le_trans (of_decide_eq_true hab) (of_decide_eq_true hbc))
  have htotal : ∀ a b : String, ((decide (a ≤ b)) || (decide (b ≤ a))) = true := fun a b => by
    simpa [Bool.or_eq_true, decide_eq_true_eq] using le_total a b
  have hsorteq : (headerKeys h1).mergeSort (fun a b => a ≤ b) =
      (headerKeys h2).mergeSort (fun a b => a ≤ b) := by
    apply List.eq_of_perm_of_sorted (r := (fun a b : String => a ≤ b))
    · exact ((List.mergeSort_perm _ _).trans hperm).trans (List.mergeSort_perm _ _).symm
    · exact (List.sorted_mergeSort htrans htotal (headerKeys h1)).imp
        (fun hab => of_decide_eq_true hab)
    · exact (List.sorted_mergeSort htrans htotal (headerKeys h2)).imp
        (fun hab => of_decide_eq_true hab)
  have hfun : (fun k => k ++ ":" ++ fmtStringSlice ((h1.lookup k).getD [])) =
      (fun k => k ++ ":" ++ fmtStringSlice ((h2.lookup k).getD [])) :=
    funext fun k => by rw [hl k]
  simp only [fmtSprintHeader]
  rw [hsorteq, hfun]

/-- With the opt-out unset, an unset CA path yields its error, whatever the
other variables hold. -/
theorem dbConfFromEnv_ca_missing (env : Env) (tlsCfg : TLSBuilder)
    (hskip : env.dbSkipTLS = none) (hca : env.dbCACertPath = none) :
    dbConfFromEnv env tlsCfg = .error .errCertPath := by
  simp [dbConfFromEnv, hskip, hca]

/-- With the opt-out unset and the CA path present, an unset client
certificate path yields its error. -/
theorem dbConfFromEnv_cc_missing (env : Env) (tlsCfg : TLSBuilder)
    (hskip : env.dbSkipTLS = none) (hca : env.dbCACertPath ≠ none)
    (hcc : env.dbClientCertPath = none) :
    dbConfFromEnv env tlsCfg = .error .errClientCertPath := by
  rcases Option.ne_none_iff_exists'.mp hca with ⟨p, hp⟩
  simp [dbConfFromEnv, hskip, hp, hcc]

/-- With the opt-out unset and the first two paths present, an unset client
key path yields its error. -/
theorem dbConfFromEnv_ck_missing (env : Env) (tlsCfg : TLSBuilder)
    (hskip : env.dbSkipTLS = none) (hca : env.dbCACertPath ≠ none)
    (hcc : env.dbClientCertPath ≠ none) (hck : env.dbClientKeyPath = none) :
    dbConfFromEnv env tlsCfg = .error .errClientKeyPath := by
  rcases Option.ne_none_iff_exists'.mp hca with ⟨p, hp⟩
  rcases Option.ne_none_iff_exists'.mp hcc with ⟨q, hq⟩
  simp [dbConfFromEnv, hskip, hp, hq, hck]

end Reqlogd

namespace Reqlogd

/-- Claim C1, evaluated at a failing insert: the response the caller
actually receives has status 200, not the claimed 500, because jsonError
writes the JSON body before calling WriteHeader, so the implicit 200 from
the body write wins and the later WriteHeader 500 is ignored; the body is
the (empty) JSON object. -/
theorem insert_failure_status_200_not_500 :
    (srvFail.serveReqLog req0 .initial).response.finalStatus = 200 ∧
    (srvFail.serveReqLog req0 .initial).response.finalStatus ≠ 500 ∧
    (srvFail.serveReqLog req0 .initial).response.body = "\x7b\x7d\n" :=
  ⟨rfl, by decide, rfl⟩

/-- Claim C2, counterexample: a request whose body read fails partway,
after three bytes were delivered, is recorded with length 3, not 0 as the
claim states, since the code takes the length of whatever ReadAll
returned. -/
theorem incomplete_body_read_length_not_zero :
    reqBodyErr.body = some { bytes := [104, 101, 108], readErr := true } ∧
    (srvOk.serveReqLog reqBodyErr .initial).record.length = 3 ∧
    ¬ ((srvOk.serveReqLog reqBodyErr .initial).record.length = 0) :=
  ⟨rfl, rfl, by decide⟩

/-- Claim C2, amended: when draining the body fails partway through, the
recorded length is the number of bytes successfully read before the
failure, and processing still continues to the insert step. -/
theorem bodyLength_on_read_failure (s : Server) (r : Request) (w : ResponseWriter)
    (bs : List Nat) (hb : r.body = some { bytes := bs, readErr := true }) :
    (s.serveReqLog r w).record.length = bs.length ∧
    Event.insertCall ∈ (s.serveReqLog r w).trace := by
  refine ⟨?_, ?_⟩
  · rw [serveReqLog_record]; simp [hb]
  · rcases serveReqLog_trace s r w with ht | ht <;> rw [ht] <;> simp

/-- Witness for the amended C2 at a concrete failed read of three bytes. -/
theorem bodyLength_on_read_failure_witness :
    reqBodyErr.body = some { bytes := [104, 101, 108], readErr := true } ∧
    (srvOk.serveReqLog reqBodyErr .initial).record.length = [104, 101, 108].length ∧
    Event.insertCall ∈ (srvOk.serveReqLog reqBodyErr .initial).trace :=
  ⟨rfl, (bodyLength_on_read_failure srvOk reqBodyErr .initial [104, 101, 108] rfl).1,
    (bodyLength_on_read_failure srvOk reqBodyErr .initial [104, 101, 108] rfl).2⟩

/-- Claim C3: the headers field of the record is a deterministic function
of the header map: two invocations of the handler on requests whose header
collections are equal as maps (same lookup on duplicate-free keys) render
the same headers string, whatever the servers, writers, and listing
orders. -/
theorem headers_deterministic (s1 s2 : Server) (r1 r2 : Request)
    (w1 w2 : ResponseWriter)
    (n1 : (headerKeys r1.header).Nodup) (n2 : (headerKeys r2.header).Nodup)
    (hl : ∀ k, r1.header.lookup k = r2.header.lookup k) :
    (s1.serveReqLog r1 w1).record.headers = (s2.serveReqLog r2 w2).record.headers := by
  rw [serveReqLog_record, serveReqLog_record]
  exact fmtSprintHeader_eq_of_lookup_eq _ _ n1 n2 hl

/-- Witness for C3: the same two-entry header map listed in both orders
renders identically. -/
theorem headers_deterministic_witness :
    (headerKeys reqH1.header).Nodup ∧ (headerKeys reqH2.header).Nodup ∧
    (srvOk.serveReqLog reqH1 .initial).record.headers =
      (srvOk.serveReqLog reqH2 .initial).record.headers := by
  refine ⟨by decide, by decide, ?_⟩
  apply headers_deterministic srvOk srvOk reqH1 reqH2 .initial .initial
    (by decide) (by decide)
  intro k
  by_cases hA : k = "Accept"
  · subst hA; rfl
  · by_cases hH : k = "Host"
    · subst hH; rfl
    · show List.lookup k hdr1 = List.lookup k hdr2
      simp only [hdr1, hdr2, List.lookup]
      rw [show (k == "Accept") = false from by simp [hA],
        show (k == "Host") = false from by simp [hH]]

/-- Claim C4: the scheme of the recorded url is https iff the request
arrived over a TLS-terminated connection, and http otherwise. -/
theorem url_scheme_https_iff_tls (s : Server) (r : Request) (w : ResponseWriter) :
    urlScheme (s.serveReqLog r w).record.url = (if r.tls then "https" else "http") ∧
    (urlScheme (s.serveReqLog r w).record.url = "https" ↔ r.tls = true) := by
  have h : urlScheme (s.serveReqLog r w).record.url =
      (if r.tls then "https" else "http") := by
    rw [serveReqLog_record]
    cases ht : r.tls <;>
      simp [urlScheme, URL.string, String.data_append, List.takeWhile]
  refine ⟨h, ?_⟩
  rw [h]
  cases r.tls <;> simp

/-- Witness for C4 at a concrete TLS-terminated request. -/
theorem url_scheme_https_iff_tls_witness :
    urlScheme (srvOk.serveReqLog reqTLS .initial).record.url =
      (if reqTLS.tls then "https" else "http") ∧
    (urlScheme (srvOk.serveReqLog reqTLS .initial).record.url = "https" ↔
      reqTLS.tls = true) :=
  url_scheme_https_iff_tls srvOk reqTLS .initial

/-- Claim C5: with the TLS opt-out unset and any of the three certificate
or key paths missing, startup fails before the server begins listening,
with the error of the first missing path in checking order; the three
error messages are pairwise distinct, each identifying its path. -/
theorem missing_cert_path_fails_startup (env : Env) (tlsCfg : TLSBuilder)
    (ping : MySQLConfig → Except ConfErr Unit) (hskip : env.dbSkipTLS = none) :
    ((env.dbCACertPath = none ∨ env.dbClientCertPath = none ∨
        env.dbClientKeyPath = none) →
      (mainStartup env tlsCfg ping).isListening = false) ∧
    (env.dbCACertPath = none →
      mainStartup env tlsCfg ping = .fatal .errCertPath) ∧
    (env.dbCACertPath ≠ none → env.dbClientCertPath = none →
      mainStartup env tlsCfg ping = .fatal .errClientCertPath) ∧
    (env.dbCACertPath ≠ none → env.dbClientCertPath ≠ none →
      env.dbClientKeyPath = none →
      mainStartup env tlsCfg ping = .fatal .errClientKeyPath) ∧
    (ConfErr.errCertPath.message ≠ ConfErr.errClientCertPath.message ∧
      ConfErr.errCertPath.message ≠ ConfErr.errClientKeyPath.message ∧
      ConfErr.errClientCertPath.message ≠ ConfErr.errClientKeyPath.message) := by
  have hca : env.dbCACertPath = none →
      mainStartup env tlsCfg ping = .fatal .errCertPath := fun h => by
    simp [mainStartup, dbConfFromEnv_ca_missing env tlsCfg hskip h]
  have hcc : env.dbCACertPath ≠ none → env.dbClientCertPath = none →
      mainStartup env tlsCfg ping = .fatal .errClientCertPath := fun h0 h1 => by
    simp [mainStartup, dbConfFromEnv_cc_missing env tlsCfg hskip h0 h1]
  have hck : env.dbCACertPath ≠ none → env.dbClientCertPath ≠ none →
      env.dbClientKeyPath = none →
      mainStartup env tlsCfg ping = .fatal .errClientKeyPath := fun h0 h1 h2 => by
    simp [mainStartup, dbConfFromEnv_ck_missing env tlsCfg hskip h0 h1 h2]
  refine ⟨?_, hca, hcc, hck, by decide, by decide, by decide⟩
  intro hmiss
  rcases hmiss with h | h | h
  · rw [hca h]; rfl
  · by_cases h0 : env.dbCACertPath = none
    · rw [hca h0]; rfl
    · rw [hcc h0 h]; rfl
  · by_cases h0 : env.dbCACertPath = none
    · rw [hca h0]; rfl
    · by_cases h1 : env.dbClientCertPath = none
      · rw [hcc h0 h1]; rfl
      · rw [hck h0 h1 h]; rfl

/-- Witness for C5: the opt-out unset and only the CA path missing makes
startup fatal with the CA-path error, never reaching the listen step. -/
theorem missing_cert_path_fails_startup_witness :
    envNoCA.dbSkipTLS = none ∧ envNoCA.dbCACertPath = none ∧
    mainStartup envNoCA tlsOk pingOk = .fatal .errCertPath ∧
    (mainStartup envNoCA tlsOk pingOk).isListening = false :=
  ⟨rfl, rfl, (missing_cert_path_fails_startup envNoCA tlsOk pingOk rfl).2.1 rfl,
    (missing_cert_path_fails_startup envNoCA tlsOk pingOk rfl).1 (Or.inl rfl)⟩

/-- Claim C6: the received time is taken from the injected clock and
normalized to UTC as the first action of the handler, before the URL is
rebuilt and before the body is drained. -/
theorem receivedAt_sampled_first_and_utc (s : Server) (r : Request) (w : ResponseWriter) :
    (s.serveReqLog r w).trace.head? = some .clockRead ∧
    (s.serveReqLog r w).record.recievedAt = s.now.utc ∧
    (s.serveReqLog r w).record.recievedAt.loc = "UTC" ∧
    (s.serveReqLog r w).trace.indexOf .clockRead <
      (s.serveReqLog r w).trace.indexOf .urlBuild ∧
    (s.serveReqLog r w).trace.indexOf .clockRead <
      (s.serveReqLog r w).trace.indexOf .drainBody := by
  have hrec := serveReqLog_record s r w
  rcases serveReqLog_trace s r w with ht | ht <;>
    exact ⟨by rw [ht]; rfl, by rw [hrec], by rw [hrec]; rfl, by rw [ht]; decide,
      by rw [ht]; decide⟩

/-- Witness for C6 at a concrete request. -/
theorem receivedAt_sampled_first_and_utc_witness :
    (srvOk.serveReqLog req0 .initial).trace.head? = some .clockRead ∧
    (srvOk.serveReqLog req0 .initial).record.recievedAt = srvOk.now.utc ∧
    (srvOk.serveReqLog req0 .initial).record.recievedAt.loc = "UTC" ∧
    (srvOk.serveReqLog req0 .initial).trace.indexOf .clockRead <
      (srvOk.serveReqLog req0 .initial).trace.indexOf .urlBuild ∧
    (srvOk.serveReqLog req0 .initial).trace.indexOf .clockRead <
      (srvOk.serveReqLog req0 .initial).trace.indexOf .drainBody :=
  receivedAt_sampled_first_and_utc srvOk req0 .initial

/-- Claim C7: when the insert succeeds the caller receives status 200 with
an empty body: the handler returns without writing, and net/http then
sends the implicit 200 and nothing else. -/
theorem insert_success_responds_200_empty (s : Server) (r : Request)
    (h : s.db ((s.serveReqLog r .initial).record) = .ok ()) :
    (s.serveReqLog r .initial).response.finalStatus = 200 ∧
    (s.serveReqLog r .initial).response.body = "" := by
  rw [(serveReqLog_ok s r .initial h).1]
  exact ⟨rfl, rfl⟩

/-- Witness for C7 with an always-succeeding insert. -/
theorem insert_success_responds_200_empty_witness :
    srvOk.db ((srvOk.serveReqLog req0 .initial).record) = .ok () ∧
    (srvOk.serveReqLog req0 .initial).response.finalStatus = 200 ∧
    (srvOk.serveReqLog req0 .initial).response.body = "" :=
  ⟨rfl, insert_success_responds_200_empty srvOk req0 rfl⟩

/-- Claim C8: with the TLS opt-out set, configuration resolution succeeds
with the base config whose TLS profile name is empty (no encrypted-channel
profile), the result does not depend on the trust-profile builder (it is
never invoked), and it does not depend on the three certificate and key
path variables (they are never read). -/
theorem skip_tls_skips_trust_profile (env : Env) (v : String)
    (tlsCfg tlsCfg2 : TLSBuilder) (ca cc ck : Option String)
    (hskip : env.dbSkipTLS = some v) :
    dbConfFromEnv env tlsCfg = .ok (baseDconf env) ∧
    (baseDconf env).tlsConfig = "" ∧
    dbConfFromEnv
        { env with dbCACertPath := ca, dbClientCertPath := cc, dbClientKeyPath := ck }
        tlsCfg2 = dbConfFromEnv env tlsCfg := by
  refine ⟨?_, ?_, ?_⟩
  · simp [dbConfFromEnv, hskip]
  · rcases hu : env.dbUser <;> rcases hp : env.dbPass <;> rcases ha : env.dbAddr <;>
      rcases hn : env.dbName <;> simp [baseDconf, hu, hp, ha, hn]
  · simp [dbConfFromEnv, hskip, baseDconf]

/-- Witness for C8: the opt-out set, the three paths replaced by unset
values and the builder replaced by a failing one change nothing. -/
theorem skip_tls_skips_trust_profile_witness :
    envSkip.dbSkipTLS = some "1" ∧
    dbConfFromEnv envSkip tlsOk = .ok (baseDconf envSkip) ∧
    (baseDconf envSkip).tlsConfig = "" ∧
    dbConfFromEnv
      { envSkip with
          dbCACertPath := none, dbClientCertPath := none, dbClientKeyPath := none }
      tlsBad = dbConfFromEnv envSkip tlsOk :=
  ⟨rfl, skip_tls_skips_trust_profile envSkip "1" tlsOk tlsBad none none none rfl⟩

/-- Claim C9: on insert failure the error-response body is built from a
struct whose only field, msg, is not exported and hence invisible to
encoding/json, so the body written to the caller is the empty JSON object
(plus the encoder newline) whatever the error message was. -/
theorem error_body_renders_empty_object (s : Server) (r : Request) (e : String)
    (h : s.db ((s.serveReqLog r .initial).record) = .error e) :
    (s.serveReqLog r .initial).response.body = "\x7b\x7d\n" ∧
    goFieldExported "msg" = false := by
  rw [(serveReqLog_err s r .initial e h).1]
  exact ⟨rfl, rfl⟩

/-- Witness for C9 with a concrete failing insert. -/
theorem error_body_renders_empty_object_witness :
    srvFail.db ((srvFail.serveReqLog req0 .initial).record) = .error "boom" ∧
    (srvFail.serveReqLog req0 .initial).response.body = "\x7b\x7d\n" ∧
    goFieldExported "msg" = false :=
  ⟨rfl, error_body_renders_empty_object srvFail req0 "boom" rfl⟩

/-- Claim C10: configuration resolution checks the three paths in the
fixed order CA certificate, client certificate, client key: a missing CA
path yields the CA error whatever the other two hold, the client
certificate error needs the CA path present, and the client key error
needs the first two present. -/
theorem cert_path_check_order (env : Env) (tlsCfg : TLSBuilder)
    (hskip : env.dbSkipTLS = none) :
    (env.dbCACertPath = none → dbConfFromEnv env tlsCfg = .error .errCertPath) ∧
    (env.dbCACertPath ≠ none → env.dbClientCertPath = none →
      dbConfFromEnv env tlsCfg = .error .errClientCertPath) ∧
    (env.dbCACertPath ≠ none → env.dbClientCertPath ≠ none →
      env.dbClientKeyPath = none →
      dbConfFromEnv env tlsCfg = .error .errClientKeyPath) :=
  ⟨fun h => dbConfFromEnv_ca_missing env tlsCfg hskip h,
    fun h0 h1 => dbConfFromEnv_cc_missing env tlsCfg hskip h0 h1,
    fun h0 h1 h2 => dbConfFromEnv_ck_missing env tlsCfg hskip h0 h1 h2⟩

/-- Witness for C10: with both the CA path and the client key path unset,
the CA-path error is returned. -/
theorem cert_path_check_order_witness :
    envNoCANoKey.dbSkipTLS = none ∧ envNoCANoKey.dbCACertPath = none ∧
    envNoCANoKey.dbClientKeyPath = none ∧
    dbConfFromEnv envNoCANoKey tlsOk = .error .errCertPath :=
  ⟨rfl, rfl, rfl, (cert_path_check_order envNoCANoKey tlsOk rfl).1 rfl⟩

end Reqlogd
